import Mathlib

/-!
Verification of the `deno_result` Result-algebra library.

The repository holds two variants of one TypeScript module: the primary
`src/mod.ts` and a second historical variant of the same library. Both are
value layers over a tagged record `\x7b ok, value \x7d` / `\x7b ok, error \x7d`.

The runtime is embedded shallowly:
* `JSVal` is a universe of JavaScript values (payloads);
* a constructed object is an association list of field names to values
  (`JSObject`), matching the object literals in the source;
* `getField` is JavaScript member access (`undefined` on a missing field);
* `JSVal.truthy` is JavaScript conditional-test truthiness;
* `unwrap` is instrumented: besides its return value it yields the list of
  arguments the fallback callback was invoked with, and it returns in
  `Except JSError` so that "does not throw" is expressible.  The optional
  invocation `callback?.(...)` of the primary module never throws, which the
  model renders by never producing `Except.error`.
-/

set_option autoImplicit false

/-- A universe of JavaScript runtime values, rich enough for the payloads the
library is generic over. -/
inductive JSVal where
  | null
  | undefined
  | bool (b : Bool)
  | num (n : Int)
  | str (s : String)
  | pair (a b : JSVal)
  deriving DecidableEq, Repr

/-- A JavaScript object literal: the ordered list of its fields. -/
abbrev JSObject := List (String × JSVal)

/-- Errors the embedded runtime could raise. -/
inductive JSError where
  | typeError
  deriving DecidableEq, Repr

/-- JavaScript member access `o.k`: the value of the first field named `k`,
or `undefined` when no such field exists. -/
def getField (o : JSObject) (k : String) : JSVal :=
  match o with
  | [] => JSVal.undefined
  | (k2, v) :: rest => if k2 = k then v else getField rest k

/-- JavaScript truthiness of a value, as used by the conditional operator. -/
def JSVal.truthy : JSVal → Bool
  | .null => false
  | .undefined => false
  | .bool b => b
  | .num n => n != 0
  | .str s => s != ""
  | .pair _ _ => true

/-- The field name of the `ok` discriminant. -/
def okKey : String := "ok"

namespace DataKey

/-- `DataKey.Success` from the source enum: the payload field name of a
successful result. -/
def Success : String := "value"

/-- `DataKey.Failure` from the source enum: the payload field name of a
failed result. -/
def Failure : String := "error"

end DataKey

/-! ## Primary module (`src/mod.ts`) -/

namespace Mod

/-- `success(value)`: builds the object literal
`\x7b ok: true, [DataKey.Success]: value \x7d`. -/
def success (value : JSVal) : JSObject :=
  [(okKey, JSVal.bool true), (DataKey.Success, value)]

/-- `success()`: the default parameter `value = null` binds the payload to
`null`. -/
def successNoArg : JSObject := success JSVal.null

/-- `failure(error)`: builds the object literal
`\x7b ok: false, [DataKey.Failure]: error \x7d`. -/
def failure (error : JSVal) : JSObject :=
  [(okKey, JSVal.bool false), (DataKey.Failure, error)]

/-- `failure()`: the default parameter `error = null` binds the payload to
`null`. -/
def failureNoArg : JSObject := failure JSVal.null

/-- `from(test, data)`: `test ? success(data) : failure(data)`. -/
def «from» (test : Bool) (data : JSVal) : JSObject :=
  if test then success data else failure data

/-- `from(test)`: the primary module declares the default parameter
`data = null`. -/
def fromNoData (test : Bool) : JSObject := «from» test JSVal.null

/-- `inspect(result)`: `result.ok ? result[DataKey.Success] :
result[DataKey.Failure]`. -/
def inspect (result : JSObject) : JSVal :=
  if (getField result okKey).truthy then getField result DataKey.Success
  else getField result DataKey.Failure

/-- `invert(result)`: `result.ok ? failure(result[DataKey.Success]) :
success(result[DataKey.Failure])`. -/
def invert (result : JSObject) : JSObject :=
  if (getField result okKey).truthy then failure (getField result DataKey.Success)
  else success (getField result DataKey.Failure)

/-- `unwrap(result, callback?)`: `result.ok ? result[DataKey.Success] :
callback?.(result[DataKey.Failure])`.

The callback is optional in the implementation and is invoked through the
optional-call operator `?.`, which yields `undefined` instead of throwing
when the callback is absent.  The model returns the JavaScript result paired
with the list of arguments the callback was invoked with, inside `Except`
to record that no branch throws. -/
def unwrap (result : JSObject) (callback : Option (JSVal → JSVal)) :
    Except JSError (JSVal × List JSVal) :=
  if (getField result okKey).truthy then
    Except.ok (getField result DataKey.Success, [])
  else
    match callback with
    | some f => Except.ok (f (getField result DataKey.Failure),
        [getField result DataKey.Failure])
    | none => Except.ok (JSVal.undefined, [])

end Mod

/-! ## Second historical variant (the later file in the source) -/

namespace V2

/-- `success(value)` of the second variant: `\x7b ok: true, value \x7d`. -/
def success (value : JSVal) : JSObject :=
  [(okKey, JSVal.bool true), (DataKey.Success, value)]

/-- `failure(error)` of the second variant: `\x7b ok: false, error \x7d`. -/
def failure (error : JSVal) : JSObject :=
  [(okKey, JSVal.bool false), (DataKey.Failure, error)]

/-- `from(test, data)` of the second variant:
`test ? success(data) : failure(data)`. -/
def «from» (test : Bool) (data : JSVal) : JSObject :=
  if test then success data else failure data

/-- `from(test)` of the second variant: its default parameter is
`data = undefined`. -/
def fromNoData (test : Bool) : JSObject := «from» test JSVal.undefined

/-- `inspect(result)` of the second variant. -/
def inspect (result : JSObject) : JSVal :=
  if (getField result okKey).truthy then getField result DataKey.Success
  else getField result DataKey.Failure

/-- `invert(result)` of the second variant. -/
def invert (result : JSObject) : JSObject :=
  if (getField result okKey).truthy then failure (getField result DataKey.Success)
  else success (getField result DataKey.Failure)

/-- `unwrap(result, cb)` of the second variant: the callback is required,
`result.ok ? result.value : cb(result.error)`; invocation arguments are
traced as in `Mod.unwrap`. -/
def unwrap (result : JSObject) (cb : JSVal → JSVal) : JSVal × List JSVal :=
  if (getField result okKey).truthy then (getField result DataKey.Success, [])
  else (cb (getField result DataKey.Failure), [getField result DataKey.Failure])

end V2

/-! ## Claims -/

/-- C1: for every payload x, `from(b, x)` is structurally equal to
`success(x)` when b is true and to `failure(x)` when b is false; moreover
`from(true).ok` is `true` and `from(false).ok` is `false`. -/
theorem from_matches_success_failure (x : JSVal) :
    Mod.«from» true x = Mod.success x ∧
    Mod.«from» false x = Mod.failure x ∧
    getField (Mod.fromNoData true) okKey = JSVal.bool true ∧
    getField (Mod.fromNoData false) okKey = JSVal.bool false := by
  refine ⟨rfl, rfl, by decide, by decide⟩

/-- C2: for every Result, i.e. every value of the form
`\x7b ok: true, value: v \x7d` or `\x7b ok: false, error: e \x7d`,
`invert(invert(r))` is structurally equal to r. -/
theorem invert_involution (v e : JSVal) :
    Mod.invert (Mod.invert (Mod.success v)) = Mod.success v ∧
    Mod.invert (Mod.invert (Mod.failure e)) = Mod.failure e := by
  constructor <;> rfl

/-- C3: for every error payload e and callback f, `unwrap(failure(e), f)`
returns `f(e)`, and the callback-invocation trace is exactly `[e]`: f is
invoked exactly once, with argument e, and nothing is thrown. -/
theorem unwrap_failure_invokes_callback_once (e : JSVal) (f : JSVal → JSVal) :
    Mod.unwrap (Mod.failure e) (some f) = Except.ok (f e, [e]) := by
  rfl

/-- C4: for every value x and every (possibly absent) callback,
`unwrap(success(x), callback)` returns x and the callback is never invoked:
its invocation trace is empty. -/
theorem unwrap_success_passthrough (x : JSVal) (c : Option (JSVal → JSVal)) :
    Mod.unwrap (Mod.success x) c = Except.ok (x, []) := by
  rfl

/-- C5: for every payload x, `inspect(success(x)) = x` and
`inspect(failure(x)) = x`; `inspect` is a total function of the model, so it
never fails on a well-formed Result. -/
theorem inspect_payload_fidelity (x : JSVal) :
    Mod.inspect (Mod.success x) = x ∧ Mod.inspect (Mod.failure x) = x := by
  constructor <;> rfl

/-- C6: for every payload x, `invert(success(x))` is structurally equal to
`failure(x)` and `invert(failure(x))` to `success(x)`: the success/failure
role is swapped and the payload is preserved unchanged. -/
theorem invert_swap (x : JSVal) :
    Mod.invert (Mod.success x) = Mod.failure x ∧
    Mod.invert (Mod.failure x) = Mod.success x := by
  constructor <;> rfl

/-- C7: every Result produced by `success`, `failure`, `from` or `invert` is
a plain record with exactly the two fields `ok` and `value` (when ok is
true) or `ok` and `error` (when ok is false); no result carries both a
`value` and an `error` field; `success(x).ok` is true and `failure(x).ok`
is false. -/
theorem result_shape (x v e : JSVal) (b : Bool) :
    (Mod.success x).map Prod.fst = [okKey, DataKey.Success] ∧
    (Mod.failure x).map Prod.fst = [okKey, DataKey.Failure] ∧
    ((Mod.«from» b x).map Prod.fst = [okKey, DataKey.Success] ∨
      (Mod.«from» b x).map Prod.fst = [okKey, DataKey.Failure]) ∧
    (Mod.invert (Mod.success v)).map Prod.fst = [okKey, DataKey.Failure] ∧
    (Mod.invert (Mod.failure e)).map Prod.fst = [okKey, DataKey.Success] ∧
    ¬ (DataKey.Success ∈ (Mod.success x).map Prod.fst ∧
        DataKey.Failure ∈ (Mod.success x).map Prod.fst) ∧
    ¬ (DataKey.Success ∈ (Mod.failure x).map Prod.fst ∧
        DataKey.Failure ∈ (Mod.failure x).map Prod.fst) ∧
    getField (Mod.success x) okKey = JSVal.bool true ∧
    getField (Mod.failure x) okKey = JSVal.bool false := by
  cases b with
  | false =>
    refine ⟨rfl, rfl, Or.inr rfl, rfl, rfl, ?_, ?_, rfl, rfl⟩ <;>
      simp [Mod.success, Mod.failure, okKey, DataKey.Success, DataKey.Failure]
  | true =>
    refine ⟨rfl, rfl, Or.inl rfl, rfl, rfl, ?_, ?_, rfl, rfl⟩ <;>
      simp [Mod.success, Mod.failure, okKey, DataKey.Success, DataKey.Failure]

/-- C8: `success()` binds its payload to the declared default `null`, and so
does `failure()`: `success()` is structurally equal to `success(null)` and
`failure()` to `failure(null)`. -/
theorem no_arg_defaults_to_null :
    Mod.successNoArg = Mod.success JSVal.null ∧
    Mod.failureNoArg = Mod.failure JSVal.null ∧
    getField Mod.successNoArg DataKey.Success = JSVal.null ∧
    getField Mod.failureNoArg DataKey.Failure = JSVal.null := by
  refine ⟨rfl, rfl, by decide, by decide⟩

/-- C9: the two variants of the library disagree on the default payload of
`from` when data is omitted — the primary module uses `null`, the second
variant uses `undefined` — and they agree for every boolean test whenever
the data argument is supplied explicitly. -/
theorem from_variants_default_disagreement (b : Bool) (x : JSVal) :
    Mod.fromNoData b = Mod.«from» b JSVal.null ∧
    V2.fromNoData b = V2.«from» b JSVal.undefined ∧
    Mod.fromNoData b ≠ V2.fromNoData b ∧
    Mod.«from» b x = V2.«from» b x := by
  cases b <;> exact ⟨rfl, rfl, by decide, rfl⟩

/-- C10: in the primary module, for every error payload e,
`unwrap(failure(e))` with no callback supplied evaluates the optional call
`callback?.(...)` to `undefined` without invoking anything and without
raising an error: the result is a normal (non-exceptional) `undefined`. -/
theorem unwrap_missing_callback_yields_undefined (e : JSVal) :
    Mod.unwrap (Mod.failure e) none = Except.ok (JSVal.undefined, []) ∧
    (Mod.unwrap (Mod.failure e) none).isOk = true := by
  constructor <;> rfl
